import Mathlib

/-!
Shallow embedding of `src/attributes.mixin.js` (zooduck/attributes-mixin).

The mixin installs getter/setter pairs for IDL attributes on a custom
element prototype.  We model JavaScript runtime values (`JSVal`), the JS
number line with NaN and the infinities (`JSNum`, with rationals standing
for finite doubles), JS truthiness, `parseFloat`, the DOM attribute
interface (`getAttribute` / `setAttribute` / `hasAttribute` /
`removeAttribute`), the per-instance private value store
(`#idlAttributes`), and proxy-target objects.  Each branch of the source
switch in `#setupAttribute` is translated into its own getter/setter
function; `attrGet` / `attrSet` dispatch on the descriptor `type` field
exactly as the source switch does.  Setters return the successor state
plus the list of direct `attributeChangedCallback` invocations they make.
-/

namespace AttributesMixin

/-- JS numbers: NaN, the two infinities, and finite values (idealised as
rationals; every value `parseFloat` can produce from a finite decimal
literal is such a rational). -/
inductive JSNum where
  | nan : JSNum
  | inf : Bool → JSNum
  | val : ℚ → JSNum
deriving DecidableEq

/-- JS runtime values as far as this mixin can observe them. -/
inductive JSVal where
  | undef : JSVal
  | null : JSVal
  | bool : Bool → JSVal
  | num : JSNum → JSVal
  | str : String → JSVal
deriving DecidableEq

/-- JS truthiness of a number: NaN, 0 and -0 are falsy. -/
def numTruthy : JSNum → Bool
  | JSNum.nan => false
  | JSNum.inf _ => true
  | JSNum.val q => if q = 0 then false else true

/-- JS truthiness (`Boolean(v)`): undefined, null, false, NaN, 0 and the
empty string are falsy; everything else is truthy. -/
def truthy : JSVal → Bool
  | JSVal.undef => false
  | JSVal.null => false
  | JSVal.bool b => b
  | JSVal.num n => numTruthy n
  | JSVal.str s => if s = "" then false else true

/-- `a || b` in JS: `a` when truthy, else `b`. -/
def jsOr (a b : JSVal) : JSVal := if truthy a then a else b

/-- Coalesce a freshly parsed number exactly as `parseFloat(x) || fallback`
does in JS: the number itself when truthy (finite nonzero or infinite),
else the fallback. -/
def numOrElse (n : JSNum) (fallback : JSVal) : JSVal :=
  if numTruthy n then JSVal.num n else fallback

/-- Digit recogniser for the decimal grammar of `parseFloat`. -/
def isDigitChar (c : Char) : Bool := decide ('0' ≤ c) && decide (c ≤ '9')

def digitVal (c : Char) : Nat := c.toNat - '0'.toNat

def digitsToNat (ds : List Char) : Nat :=
  ds.foldl (fun a c => a * 10 + digitVal c) 0

/-- Split a character list into its longest digit run and the rest. -/
def takeDigits (cs : List Char) : List Char × List Char :=
  (cs.takeWhile isDigitChar, cs.dropWhile isDigitChar)

/-- JS StrWhiteSpace characters stripped by `parseFloat` (core ASCII ones). -/
def isSpaceChar (c : Char) : Bool :=
  c = ' ' || c = '\t' || c = '\n' || c = '\r' || c = '\x0b' || c = '\x0c'

/-- Longest decimal-mantissa prefix: `Digits [. Digits?] | . Digits`.
Returns the mantissa as an unreduced decimal fraction — a numerator and
the power-of-ten scale, so the value is `numerator / 10 ^ scale` — plus
the unconsumed rest; `none` when no mantissa is present (then
`parseFloat` yields NaN). -/
def parseMantissa (cs : List Char) : Option ((Nat × Nat) × List Char) :=
  let ip := takeDigits cs
  match ip.2 with
  | '.' :: r2 =>
      let fp := takeDigits r2
      if ip.1.isEmpty && fp.1.isEmpty then none
      else
        some ((digitsToNat ip.1 * 10 ^ fp.1.length + digitsToNat fp.1, fp.1.length), fp.2)
  | _ => if ip.1.isEmpty then none else some ((digitsToNat ip.1, 0), ip.2)

/-- Optional exponent part `e|E [+|-] Digits`; contributes only when at
least one digit follows, otherwise it is not part of the longest match. -/
def parseExpPart (cs : List Char) : Int :=
  match cs with
  | [] => 0
  | c :: rest =>
      if c = 'e' || c = 'E' then
        let signed : Int × List Char :=
          match rest with
          | '-' :: r => (-1, r)
          | '+' :: r => (1, r)
          | _ => (1, rest)
        let ds := takeDigits signed.2
        if ds.1.isEmpty then 0 else signed.1 * (digitsToNat ds.1 : Int)
      else 0

/-- `parseFloat` on a character list: strip leading whitespace, optional
sign, then the longest `Infinity`-or-decimal-literal prefix; NaN when no
prefix parses. -/
def parseFloatChars (cs : List Char) : JSNum :=
  let cs1 := cs.dropWhile isSpaceChar
  let signed : Bool × List Char :=
    match cs1 with
    | '-' :: r => (true, r)
    | '+' :: r => (false, r)
    | _ => (false, cs1)
  match signed.2 with
  | 'I' :: 'n' :: 'f' :: 'i' :: 'n' :: 'i' :: 't' :: 'y' :: _ => JSNum.inf signed.1
  | rest =>
      match parseMantissa rest with
      | none => JSNum.nan
      | some mr =>
          let p : Int := parseExpPart mr.2 - (mr.1.2 : Int)
          let n : Int := if signed.1 then -(mr.1.1 : Int) else (mr.1.1 : Int)
          JSNum.val (if 0 ≤ p then mkRat (n * ((10 ^ p.toNat : Nat) : Int)) 1
            else mkRat n (10 ^ (-p).toNat))

def parseFloatStr (s : String) : JSNum := parseFloatChars s.data

/-- Strip trailing zero digits from a fractional-digit list. -/
def stripTrailingZeros (s : List Char) : List Char :=
  (s.reverse.dropWhile (fun c => c = '0')).reverse

/-- Decimal rendering of a finite JS number.  Faithful to JS
`ToString(number)` on terminating decimals of moderate size (the only
finite values this development ever renders); other rationals get a
fraction fallback spelling that no theorem here evaluates. -/
def decimalString (q : ℚ) : String :=
  if q.den = 1 then toString q.num
  else
    match (List.range 41).find? (fun k => decide (q.den ∣ 10 ^ k)) with
    | some k =>
        let scaled := q.num.natAbs * (10 ^ k / q.den)
        let ipart := scaled / 10 ^ k
        let raw := toString (scaled % 10 ^ k)
        let fdigits := stripTrailingZeros (List.replicate (k - raw.length) '0' ++ raw.data)
        (if q.num < 0 then "-" else "") ++ toString ipart ++
          (if fdigits.isEmpty then "" else "." ++ String.mk fdigits)
    | none => toString q.num ++ "/" ++ toString q.den

def numToString : JSNum → String
  | JSNum.nan => "NaN"
  | JSNum.inf b => if b then "-Infinity" else "Infinity"
  | JSNum.val q => decimalString q

/-- JS `ToString` on the values this mixin can store or stringify. -/
def jsToString : JSVal → String
  | JSVal.undef => "undefined"
  | JSVal.null => "null"
  | JSVal.bool b => if b then "true" else "false"
  | JSVal.num n => numToString n
  | JSVal.str s => s

/-- `parseFloat(v)` on an arbitrary JS value: ToString then parse
(`parseFloat(undefined)` is NaN via the string "undefined", etc.). -/
def jsParseFloat (v : JSVal) : JSNum := parseFloatStr (jsToString v)

/-- JS truthiness of an optional string field of a descriptor: absent or
empty-string fields are falsy, as in `if (proxyTarget)`. -/
def strTruthy : Option String → Bool
  | some s => if s = "" then false else true
  | none => false

/-- The truthy content of a string field: `some s` exactly when the JS
truthiness check on the field passes. -/
def truthyName : Option String → Option String
  | some s => if s = "" then none else some s
  | none => none

/-- `ToPropertyKey` of a possibly-absent name: `Object.defineProperty`,
`getAttribute` and friends coerce `undefined` to the string
"undefined". -/
def jsKey : Option String → String
  | some s => s
  | none => "undefined"

/-- One entry of the static `attributes` array, as destructured by
`#setupAttribute`: `{ idlName, contentName, proxyTarget, type,
defaultValue, readonly }`.  Absent string fields are `none`; an absent
`defaultValue` is `JSVal.undef`. -/
structure AttributeConfig where
  idlName : Option String
  contentName : Option String
  proxyTarget : Option String
  type : Option String
  defaultValue : JSVal
  readonly : Bool
deriving DecidableEq

/-- `const reflectToContentAttribute = Boolean(contentAttributeName);` -/
def reflectToContentAttribute (d : AttributeConfig) : Bool := strTruthy d.contentName

/-- Observable per-instance state: the private `#idlAttributes` map
(`Map.get` of an absent key is `undefined`, indistinguishable from a
stored `undefined`), the DOM content attributes, and the proxy-target
objects (`instance[proxyTarget][idlName]`; the documented contract
requires the proxy object to exist on the instance). -/
structure ElementState where
  idlAttributes : String → JSVal
  contentAttributes : String → Option String
  proxyObjects : String → String → JSVal

/-- Fresh instance: empty private store, no content attributes, empty
proxy objects. -/
def emptyState : ElementState :=
  ⟨fun _ => JSVal.undef, fun _ => none, fun _ _ => JSVal.undef⟩

def mapSet (f : String → JSVal) (k : String) (v : JSVal) : String → JSVal :=
  fun x => if x = k then v else f x

def attrsSet (f : String → Option String) (k : String) (v : String) :
    String → Option String :=
  fun x => if x = k then some v else f x

def attrsRemove (f : String → Option String) (k : String) : String → Option String :=
  fun x => if x = k then none else f x

def proxySet (f : String → String → JSVal) (p k : String) (v : JSVal) :
    String → String → JSVal :=
  fun x y => if x = p ∧ y = k then v else f x y

/-- DOM `getAttribute`: the attribute string, or `null` when absent. -/
def getAttribute (st : ElementState) (name : String) : JSVal :=
  match st.contentAttributes name with
  | some s => JSVal.str s
  | none => JSVal.null

/-- DOM `hasAttribute`. -/
def hasAttribute (st : ElementState) (name : String) : Bool :=
  (st.contentAttributes name).isSome

/-- DOM `setAttribute`: stores the `ToString` of the value. -/
def setAttribute (st : ElementState) (name : String) (v : JSVal) : ElementState :=
  ⟨st.idlAttributes, attrsSet st.contentAttributes name (jsToString v), st.proxyObjects⟩

/-- DOM `removeAttribute`. -/
def removeAttribute (st : ElementState) (name : String) : ElementState :=
  ⟨st.idlAttributes, attrsRemove st.contentAttributes name, st.proxyObjects⟩

/-- Result of running an installed setter: the successor state and the
list of direct `attributeChangedCallback` invocations the setter makes,
each recorded as (name, oldValue, newValue). -/
structure SetResult where
  state : ElementState
  callbacks : List (String × JSVal × JSVal)

/-- The getter of the `case 'boolean':` branch of `#setupAttribute`. -/
def booleanGet (d : AttributeConfig) (st : ElementState) : JSVal :=
  if strTruthy d.proxyTarget then
    let value := st.proxyObjects (jsKey d.proxyTarget) (jsKey d.idlName)
    JSVal.bool (if value ≠ JSVal.undef then truthy value else truthy d.defaultValue)
  else if !reflectToContentAttribute d then
    let value := st.idlAttributes (jsKey d.idlName)
    JSVal.bool (if value ≠ JSVal.undef then truthy value else truthy d.defaultValue)
  else
    JSVal.bool (hasAttribute st (jsKey d.contentName))

/-- The getter of the `case 'number':` branch: every alternative is a
`parseFloat(...) || ...` chain ending in `null`. -/
def numberGet (d : AttributeConfig) (st : ElementState) : JSVal :=
  if strTruthy d.proxyTarget then
    numOrElse (jsParseFloat (st.proxyObjects (jsKey d.proxyTarget) (jsKey d.idlName)))
      JSVal.null
  else if !reflectToContentAttribute d then
    numOrElse (jsParseFloat (st.idlAttributes (jsKey d.idlName)))
      (numOrElse (jsParseFloat d.defaultValue) JSVal.null)
  else
    numOrElse (jsParseFloat (getAttribute st (jsKey d.contentName)))
      (numOrElse (jsParseFloat d.defaultValue) JSVal.null)

/-- The getter of the `default:` branch. -/
def defaultGet (d : AttributeConfig) (st : ElementState) : JSVal :=
  if strTruthy d.proxyTarget then
    st.proxyObjects (jsKey d.proxyTarget) (jsKey d.idlName)
  else if !reflectToContentAttribute d then
    jsOr (st.idlAttributes (jsKey d.idlName))
      (jsOr d.defaultValue (if d.type = some "string" then JSVal.str "" else JSVal.null))
  else
    jsOr (getAttribute st (jsKey d.contentName)) (jsOr d.defaultValue (JSVal.str ""))

/-- `if (proxyTarget) { this[proxyTarget][idlAttributeName] = value; }` —
note the source setters do NOT return after this write. -/
def proxyWriteStep (d : AttributeConfig) (st : ElementState) (v : JSVal) : ElementState :=
  if strTruthy d.proxyTarget then
    ⟨st.idlAttributes, st.contentAttributes,
      proxySet st.proxyObjects (jsKey d.proxyTarget) (jsKey d.idlName) v⟩
  else st

/-- The shared non-reflecting tail of every setter: read the old value
from the private store, store the new value, invoke
`attributeChangedCallback(idlAttributeName, oldValue, value)`, return. -/
def nonReflectingWrite (d : AttributeConfig) (st : ElementState) (v : JSVal) : SetResult :=
  let oldValue := st.idlAttributes (jsKey d.idlName)
  ⟨⟨mapSet st.idlAttributes (jsKey d.idlName) v, st.contentAttributes, st.proxyObjects⟩,
    [(jsKey d.idlName, oldValue, v)]⟩

/-- The setter of the `case 'boolean':` branch. -/
def booleanSet (d : AttributeConfig) (st : ElementState) (v : JSVal) : SetResult :=
  if d.readonly then ⟨st, []⟩
  else
    let st1 := proxyWriteStep d st v
    if !reflectToContentAttribute d then nonReflectingWrite d st1 v
    else if truthy v then ⟨setAttribute st1 (jsKey d.contentName) (JSVal.str ""), []⟩
    else ⟨removeAttribute st1 (jsKey d.contentName), []⟩

/-- The setter of the `case 'number':` branch. -/
def numberSet (d : AttributeConfig) (st : ElementState) (v : JSVal) : SetResult :=
  if d.readonly then ⟨st, []⟩
  else
    let st1 := proxyWriteStep d st v
    if !reflectToContentAttribute d then nonReflectingWrite d st1 v
    else ⟨setAttribute st1 (jsKey d.contentName) v, []⟩

/-- The setter of the `default:` branch (textually identical to the
number-branch setter in the source). -/
def defaultSet (d : AttributeConfig) (st : ElementState) (v : JSVal) : SetResult :=
  if d.readonly then ⟨st, []⟩
  else
    let st1 := proxyWriteStep d st v
    if !reflectToContentAttribute d then nonReflectingWrite d st1 v
    else ⟨setAttribute st1 (jsKey d.contentName) v, []⟩

/-- The installed getter, dispatching on the `type` field as the source
`switch (attributeType)` does. -/
def attrGet (d : AttributeConfig) (st : ElementState) : JSVal :=
  if d.type = some "boolean" then booleanGet d st
  else if d.type = some "number" then numberGet d st
  else defaultGet d st

/-- The installed setter, dispatching on the `type` field. -/
def attrSet (d : AttributeConfig) (st : ElementState) (v : JSVal) : SetResult :=
  if d.type = some "boolean" then booleanSet d st v
  else if d.type = some "number" then numberSet d st v
  else defaultSet d st v

def isError {α : Type} : Except String α → Bool
  | Except.error _ => true
  | Except.ok _ => false

/-- Installation of one descriptor (`#setupAttribute`): the three guard
throws, then one unconditional `Object.defineProperty` on the prototype;
the returned value is the property key defined (the `ToPropertyKey` of
`idlName`, so the string "undefined" when `idlName` is absent). -/
def setupAttribute (d : AttributeConfig) : Except String String :=
  if strTruthy d.proxyTarget && !strTruthy d.idlName then
    Except.error "You must provide a value for idlName when using a proxyTarget."
  else if strTruthy d.proxyTarget && strTruthy d.contentName then
    Except.error "The contentName and proxyTarget properties cannot be used together."
  else if d.readonly && !strTruthy d.proxyTarget && decide (d.defaultValue = JSVal.undef) then
    Except.error "You must provide a proxyTarget or defaultValue for readonly attributes."
  else
    Except.ok (jsKey d.idlName)

/-- The base class as far as the mixin can observe it: whether it IS
`HTMLElement`, and whether its prototype chain inherits `HTMLElement`. -/
structure BaseClass where
  isHTMLElement : Bool
  prototypeInheritsHTMLElement : Bool
deriving DecidableEq

/-- The top-level guard of `attributesMixin(Base)`. -/
def attributesMixin (b : BaseClass) : Except String Unit :=
  if !b.isHTMLElement && !b.prototypeInheritsHTMLElement then
    Except.error "Base parameter must be HTMLElement or a class that extends from or inherits HTMLElement."
  else
    Except.ok ()

/-- `static get observedAttributes()`: filter the descriptor list by
truthy `contentName`, project to `contentName`. -/
def observedAttributes (attrs : List AttributeConfig) : List String :=
  (attrs.filter (fun d => strTruthy d.contentName)).map (fun d => jsKey d.contentName)

end AttributesMixin

namespace AttributesMixin

lemma strTruthy_some {p : String} (h : p ≠ "") : strTruthy (some p) = true := by
  simp [strTruthy, h]

lemma jsParseFloat_undef : jsParseFloat JSVal.undef = JSNum.nan := by decide

lemma numOrElse_nan (t : JSVal) : numOrElse JSNum.nan t = t := rfl

lemma numOrElse_null_spec (a : JSNum) :
    numOrElse a JSVal.null = JSVal.null
      ∨ ∃ n : JSNum, numOrElse a JSVal.null = JSVal.num n ∧ numTruthy n = true := by
  by_cases h : numTruthy a = true
  · exact Or.inr ⟨a, by simp [numOrElse, h], h⟩
  · exact Or.inl (by simp [numOrElse, h])

lemma numOrElse_chain_spec (a b : JSNum) :
    numOrElse a (numOrElse b JSVal.null) = JSVal.null
      ∨ ∃ n : JSNum, numOrElse a (numOrElse b JSVal.null) = JSVal.num n ∧ numTruthy n = true := by
  by_cases h : numTruthy a = true
  · exact Or.inr ⟨a, by simp [numOrElse, h], h⟩
  · have : numOrElse a (numOrElse b JSVal.null) = numOrElse b JSVal.null := by
      simp [numOrElse, h]
    rw [this]
    exact numOrElse_null_spec b

/-- One `Object.defineProperty(this.constructor.prototype, key, { get,
set })` call.  The source passes no `configurable`, so every accessor it
installs is non-configurable, and redefining a key the mixin already
defined throws a TypeError.  `defined` is the list of keys previously
defined by the mixin on this prototype; on success the key is added. -/
def definePropertyKey (defined : List String) (k : String) : Except String (List String) :=
  if k ∈ defined then Except.error "TypeError: Cannot redefine property"
  else Except.ok (k :: defined)

/-- `#setupAttribute` including its `Object.defineProperty` effect: the
three guard throws, then the property definition at the key
`ToPropertyKey(idlName)`. -/
def setupAttributeOn (defined : List String) (d : AttributeConfig) :
    Except String (List String) :=
  match setupAttribute d with
  | Except.error e => Except.error e
  | Except.ok k => definePropertyKey defined k

/-- `#setupAttributes(attributeConfigs)`: `forEach` over the descriptor
list; the first throw aborts the iteration and propagates. -/
def setupAttributes (defined : List String) :
    List AttributeConfig → Except String (List String)
  | [] => Except.ok defined
  | d :: t =>
      match setupAttributeOn defined d with
      | Except.error e => Except.error e
      | Except.ok defined2 => setupAttributes defined2 t

/-- The three guard conditions (b)-(d) of one descriptor, as Booleans. -/
def invalidShape (d : AttributeConfig) : Bool :=
  (strTruthy d.proxyTarget && !strTruthy d.idlName)
    || (strTruthy d.proxyTarget && strTruthy d.contentName)
    || (d.readonly && !strTruthy d.proxyTarget && decide (d.defaultValue = JSVal.undef))

/-- Claim-side install-failure scan: walking the descriptors in order
while accumulating property keys, a step fails when its shape is invalid
(guards (b)-(d)) or its key was already defined (the TypeError of
`Object.defineProperty` on a non-configurable accessor). -/
def installFailure (defined : List String) : List AttributeConfig → Bool
  | [] => false
  | d :: t =>
      invalidShape d || decide (jsKey d.idlName ∈ defined)
        || installFailure (jsKey d.idlName :: defined) t

lemma setupAttribute_isError_eq (d : AttributeConfig) :
    isError (setupAttribute d) = invalidShape d := by
  unfold setupAttribute invalidShape
  split_ifs with h1 h2 h3 <;> simp_all [isError]

lemma setupAttribute_ok_key (d : AttributeConfig) (k : String)
    (h : setupAttribute d = Except.ok k) : k = jsKey d.idlName := by
  unfold setupAttribute at h
  split_ifs at h <;> simp_all

/-- Descriptor `{ idlName: 'attributeX' }`, a perfectly valid shape. -/
def duplicateIdlConfig : AttributeConfig :=
  ⟨some "attributeX", none, none, none, JSVal.undef, false⟩

/-- C4 counterexample: installing the SAME valid descriptor shape twice
throws — `Object.defineProperty` raises a TypeError redefining the
non-configurable accessor — although the shape satisfies none of
(b)-(d) (a single copy installs without error), refuting "no other
descriptor shape ever throws" / "error iff (a)-(d)". -/
theorem install_error_counterexample :
    isError (setupAttributes [] [duplicateIdlConfig, duplicateIdlConfig]) = true
  ∧ isError (setupAttribute duplicateIdlConfig) = false
  ∧ isError (setupAttributes [] [duplicateIdlConfig]) = false := by
  refine ⟨by decide, by decide, by decide⟩

/-- C4 (amended): installation raises an error synchronously iff (a) the
base neither is nor inherits `HTMLElement` (the `attributesMixin`
guard), or — walking the descriptors in order — the current descriptor
(b) has a truthy `proxyTarget` without a truthy `idlName`, (c) has
truthy `contentName` and `proxyTarget` together, or (d) has `readonly`
with no truthy `proxyTarget` and an undefined `defaultValue` (these
raise the configuration Error), or (e) its property key — the
`ToPropertyKey` of `idlName`, so the string "undefined" when `idlName`
is absent — was already defined by an earlier descriptor, in which case
`Object.defineProperty` throws a TypeError on the non-configurable
accessor (e.g. two descriptors sharing an `idlName`, or two descriptors
both lacking one).  Any single descriptor of another shape — including
one with neither `idlName` nor `contentName` — installs without error,
and the modelled runtime getters and setters are total functions,
mirroring the throw-free runtime paths. -/
theorem install_error_characterization (b : BaseClass) (d : AttributeConfig)
    (defined : List String) (l : List AttributeConfig) :
    (isError (attributesMixin b) = true
        ↔ ¬ (b.isHTMLElement = true ∨ b.prototypeInheritsHTMLElement = true))
  ∧ (isError (setupAttribute d) = true
        ↔ ((strTruthy d.proxyTarget = true ∧ strTruthy d.idlName = false)
          ∨ (strTruthy d.contentName = true ∧ strTruthy d.proxyTarget = true)
          ∨ (d.readonly = true ∧ strTruthy d.proxyTarget = false
              ∧ d.defaultValue = JSVal.undef)))
  ∧ isError (setupAttributes defined l) = installFailure defined l := by
  refine ⟨?_, ?_, ?_⟩
  · unfold attributesMixin isError
    cases hb : b.isHTMLElement <;> cases hq : b.prototypeInheritsHTMLElement <;> simp
  · unfold setupAttribute isError
    cases h1 : strTruthy d.proxyTarget <;> cases h2 : strTruthy d.idlName <;>
      cases h3 : strTruthy d.contentName <;> cases h4 : d.readonly <;>
        by_cases h5 : d.defaultValue = JSVal.undef <;> simp [h1, h2, h3, h4, h5]
  · induction l generalizing defined with
    | nil => rfl
    | cons e t ih =>
        cases hs : setupAttribute e with
        | error msg =>
            have hinv : invalidShape e = true := by
              rw [← setupAttribute_isError_eq, hs]; rfl
            simp [setupAttributes, setupAttributeOn, installFailure, hs, hinv, isError]
        | ok k =>
            have hk := setupAttribute_ok_key e k hs
            subst hk
            have hinv : invalidShape e = false := by
              rw [← setupAttribute_isError_eq, hs]; rfl
            by_cases hm : jsKey e.idlName ∈ defined
            · simp [setupAttributes, setupAttributeOn, definePropertyKey, installFailure,
                hs, hinv, hm, isError]
            · have hstep : setupAttributes defined (e :: t)
                  = setupAttributes (jsKey e.idlName :: defined) t := by
                simp [setupAttributes, setupAttributeOn, definePropertyKey, hs, hm]
              have hspec : installFailure defined (e :: t)
                  = installFailure (jsKey e.idlName :: defined) t := by
                simp [installFailure, hinv, hm]
              rw [hstep, hspec]
              exact ih (jsKey e.idlName :: defined)

/-- C5 (code bug): a descriptor with `contentName` but no `idlName`
passes all three validation guards and reaches the unconditional
`Object.defineProperty(this.constructor.prototype, idlAttributeName, ...)`
with `idlAttributeName === undefined`, so an accessor IS installed on the
prototype — under the property key "undefined" (the `ToPropertyKey`
coercion of `undefined`) — contradicting the spec's promise that no
property accessor is installed for such descriptors. -/
theorem contentName_only_defines_undefined_key :
    setupAttribute ⟨none, some "content-attribute-a", none, none, JSVal.undef, false⟩
      = Except.ok "undefined" := by
  rfl

/-- C8: `observedAttributes` is exactly the order-preserving projection
to `contentName` of the descriptors whose `contentName` is truthy (set
and nonempty); descriptors lacking a truthy `contentName` contribute
nothing. -/
theorem observedAttributes_filterMap (l : List AttributeConfig) :
    observedAttributes l = l.filterMap (fun d => truthyName d.contentName) := by
  induction l with
  | nil => rfl
  | cons d t ih =>
      unfold observedAttributes at ih ⊢
      cases h : d.contentName with
      | none =>
          simpa [List.filter_cons, List.filterMap_cons, h, strTruthy, truthyName] using ih
      | some s =>
          by_cases hs : s = "" <;>
            simpa [List.filter_cons, List.filterMap_cons, h, hs, strTruthy, truthyName,
              jsKey] using ih

/-- C9: a number-typed getter never returns 0 and never returns NaN: in
every branch the `parseFloat(...) || ...` chain coalesces a falsy parse
(0, -0 or NaN) to the next fallback, so the result is `null` or a truthy
(nonzero, non-NaN) number. -/
theorem number_getter_never_zero_or_nan (d : AttributeConfig) (st : ElementState)
    (ht : d.type = some "number") :
    attrGet d st = JSVal.null
      ∨ ∃ n : JSNum, attrGet d st = JSVal.num n ∧ numTruthy n = true := by
  have hb : ¬ (d.type = some "boolean") := by rw [ht]; simp
  unfold attrGet
  rw [if_neg hb, if_pos ht]
  unfold numberGet
  by_cases hp : strTruthy d.proxyTarget = true
  · rw [if_pos hp]
    exact numOrElse_null_spec _
  · rw [if_neg hp]
    by_cases hr : reflectToContentAttribute d = true
    · simp only [hr, Bool.not_true, Bool.false_eq_true, if_false]
      exact numOrElse_chain_spec _ _
    · simp only [Bool.not_eq_true] at hr
      simp only [hr, Bool.not_false, if_true]
      exact numOrElse_chain_spec _ _

/-- Witness configuration for C9: `{ idlName: 'number', type: 'number' }`
after the write `instance.number = 0`. -/
def c9Config : AttributeConfig := ⟨some "number", none, none, some "number", JSVal.undef, false⟩

def c9State : ElementState := (attrSet c9Config emptyState (JSVal.num (JSNum.val 0))).state

/-- C9 witness: at the concrete non-reflecting number descriptor, after
`set(0)` the getter indeed avoids 0 — it returns `null`. -/
theorem number_getter_never_zero_or_nan_witness :
    c9Config.type = some "number"
  ∧ (attrGet c9Config c9State = JSVal.null
      ∨ ∃ n : JSNum, attrGet c9Config c9State = JSVal.num n ∧ numTruthy n = true)
  ∧ attrGet c9Config c9State = JSVal.null :=
  ⟨rfl, number_getter_never_zero_or_nan c9Config c9State rfl, by decide⟩

end AttributesMixin

namespace AttributesMixin

/-- Descriptor `{ idlName: 'value', proxyTarget: 'proxyTargetA' }` from
the repository's own test suite. -/
def proxyValueConfig : AttributeConfig :=
  ⟨some "value", none, some "proxyTargetA", none, JSVal.undef, false⟩

/-- C1 counterexample: on a proxy-target descriptor (readonly false) the
write `set("123")` is NOT confined to the proxy assignment: the source
setter has no `return` after the proxy write and falls into the
non-reflecting branch, so it also writes the private store and invokes
`attributeChangedCallback`. -/
theorem proxy_write_only_effect_counterexample :
    (attrSet proxyValueConfig emptyState (JSVal.str "123")).callbacks ≠ []
  ∧ (attrSet proxyValueConfig emptyState (JSVal.str "123")).state.idlAttributes "value"
      ≠ emptyState.idlAttributes "value" := by
  constructor <;> decide

/-- C1 (amended): with `proxyTarget` truthy and `readonly` false (and no
`contentName`, which validation forbids alongside a proxy), a write
through the installed setter assigns `instance[proxyTarget][idlName] =
value` AND, falling through, also writes the private store at `idlName`
and invokes `attributeChangedCallback(idlName, oldStoreValue, value)`
exactly once; no content attribute is set or removed. -/
theorem proxy_write_effects (d : AttributeConfig) (st : ElementState) (v : JSVal)
    (p : String) (hp : d.proxyTarget = some p) (hpne : p ≠ "")
    (hro : d.readonly = false) (hc : strTruthy d.contentName = false) :
    (attrSet d st v).state.proxyObjects = proxySet st.proxyObjects p (jsKey d.idlName) v
  ∧ (attrSet d st v).state.idlAttributes = mapSet st.idlAttributes (jsKey d.idlName) v
  ∧ (attrSet d st v).state.contentAttributes = st.contentAttributes
  ∧ (attrSet d st v).callbacks = [(jsKey d.idlName, st.idlAttributes (jsKey d.idlName), v)] := by
  have hpt : strTruthy d.proxyTarget = true := by rw [hp]; exact strTruthy_some hpne
  have hkey : jsKey d.proxyTarget = p := by rw [hp]; rfl
  unfold attrSet
  split_ifs with h1 h2
  · unfold booleanSet proxyWriteStep nonReflectingWrite
    simp [hro, hpt, hkey, reflectToContentAttribute, hc]
  · unfold numberSet proxyWriteStep nonReflectingWrite
    simp [hro, hpt, hkey, reflectToContentAttribute, hc]
  · unfold defaultSet proxyWriteStep nonReflectingWrite
    simp [hro, hpt, hkey, reflectToContentAttribute, hc]

/-- C1 witness: the amended effect description at the concrete test
descriptor, fresh instance, value "123". -/
theorem proxy_write_effects_witness :
    proxyValueConfig.proxyTarget = some "proxyTargetA"
  ∧ ("proxyTargetA" ≠ "")
  ∧ proxyValueConfig.readonly = false
  ∧ strTruthy proxyValueConfig.contentName = false
  ∧ ((attrSet proxyValueConfig emptyState (JSVal.str "123")).state.proxyObjects
        = proxySet emptyState.proxyObjects "proxyTargetA" (jsKey proxyValueConfig.idlName)
            (JSVal.str "123")
      ∧ (attrSet proxyValueConfig emptyState (JSVal.str "123")).state.idlAttributes
          = mapSet emptyState.idlAttributes (jsKey proxyValueConfig.idlName) (JSVal.str "123")
      ∧ (attrSet proxyValueConfig emptyState (JSVal.str "123")).state.contentAttributes
          = emptyState.contentAttributes
      ∧ (attrSet proxyValueConfig emptyState (JSVal.str "123")).callbacks
          = [(jsKey proxyValueConfig.idlName,
                emptyState.idlAttributes (jsKey proxyValueConfig.idlName), JSVal.str "123")]) :=
  ⟨rfl, by decide, rfl, rfl,
    proxy_write_effects proxyValueConfig emptyState (JSVal.str "123") "proxyTargetA"
      rfl (by decide) rfl rfl⟩

/-- Descriptor `{ idlName: 'proxyTargetNumber', type: 'number',
proxyTarget: 'proxyTargetB', defaultValue: 5 }`. -/
def proxyNumberConfig : AttributeConfig :=
  ⟨some "proxyTargetNumber", none, some "proxyTargetB", some "number",
    JSVal.num (JSNum.val 5), false⟩

/-- C2 counterexample: on a number-typed proxy descriptor whose proxied
value is absent (`undefined`), the getter returns `null`, NOT the coerced
`defaultValue` 5: the number proxy branch is
`parseFloat(this[proxyTarget][idlName], 10) || null` and never consults
`defaultValue`. -/
theorem proxy_getter_default_counterexample :
    attrGet proxyNumberConfig emptyState = JSVal.null
  ∧ JSVal.null ≠ JSVal.num (JSNum.val 5) := by
  constructor <;> decide

/-- C2 (amended): with `proxyTarget` truthy, the boolean getter returns
the proxied value coerced with `Boolean`, falling back to
`Boolean(defaultValue)` when the proxied value is `undefined`; the
number getter returns `parseFloat(proxied) || null`, ignoring
`defaultValue`; the untyped getter returns the raw proxied value
(`undefined` included), also ignoring `defaultValue`. -/
theorem proxy_getter_per_type (d : AttributeConfig) (st : ElementState)
    (p : String) (hp : d.proxyTarget = some p) (hpne : p ≠ "") :
    (d.type = some "boolean" →
      attrGet d st = JSVal.bool
        (if st.proxyObjects p (jsKey d.idlName) ≠ JSVal.undef
         then truthy (st.proxyObjects p (jsKey d.idlName)) else truthy d.defaultValue))
  ∧ (d.type = some "number" →
      attrGet d st = numOrElse (jsParseFloat (st.proxyObjects p (jsKey d.idlName))) JSVal.null)
  ∧ (d.type ≠ some "boolean" → d.type ≠ some "number" →
      attrGet d st = st.proxyObjects p (jsKey d.idlName)) := by
  have hpt : strTruthy d.proxyTarget = true := by rw [hp]; exact strTruthy_some hpne
  have hkey : jsKey d.proxyTarget = p := by rw [hp]; rfl
  refine ⟨fun h1 => ?_, fun h2 => ?_, fun h1 h2 => ?_⟩
  · unfold attrGet booleanGet
    simp [h1, hpt, hkey]
  · have hb : d.type ≠ some "boolean" := by rw [h2]; simp
    unfold attrGet numberGet
    simp [h2, hb, hpt, hkey]
  · unfold attrGet defaultGet
    simp [h1, h2, hpt, hkey]

/-- C2 witness: the number proxy getter at the concrete descriptor with
proxied value absent evaluates per the amended description (to
`parseFloat(undefined) || null`, that is `null`). -/
theorem proxy_getter_per_type_witness :
    proxyNumberConfig.proxyTarget = some "proxyTargetB"
  ∧ ("proxyTargetB" ≠ "")
  ∧ proxyNumberConfig.type = some "number"
  ∧ attrGet proxyNumberConfig emptyState
      = numOrElse (jsParseFloat (emptyState.proxyObjects "proxyTargetB"
          (jsKey proxyNumberConfig.idlName))) JSVal.null :=
  ⟨rfl, by decide, rfl,
    (proxy_getter_per_type proxyNumberConfig emptyState "proxyTargetB" rfl (by decide)).2.1 rfl⟩

/-- Descriptor `{ idlName: 'numberThatReflects', contentName:
'number-that-reflects', type: 'number' }` from the test suite. -/
def numberReflectsConfig : AttributeConfig :=
  ⟨some "numberThatReflects", some "number-that-reflects", none, some "number",
    JSVal.undef, false⟩

/-- C3 counterexample: `set("0")` followed by `get()` returns `null`, not
the floating-point parse of "0" (which is 0): the reflecting number
getter coalesces the falsy parse 0 to the next fallback. -/
theorem number_roundtrip_counterexample :
    attrGet numberReflectsConfig
        (attrSet numberReflectsConfig emptyState (JSVal.str "0")).state = JSVal.null
  ∧ parseFloatStr "0" = JSNum.val 0
  ∧ JSVal.null ≠ JSVal.num (JSNum.val 0) := by
  refine ⟨by decide, by decide, by decide⟩

/-- C3 (amended): for a number-typed descriptor with both names (no
proxy, not readonly), `set(x); get()` for EVERY value `x` returns the
floating-point parse of `x` (the setter stringifies `x` into the
content attribute, so this is `parseFloat(String(x))`, i.e.
`jsParseFloat x`) when that parse is truthy (nonzero, non-NaN), else
the parsed `defaultValue` when truthy, else `null`; and after setting
the content attribute directly to "123.456", `get()` returns the number
123.456. -/
theorem number_reflecting_roundtrip (d : AttributeConfig) (st : ElementState)
    (v : JSVal) (c : String) (hc : d.contentName = some c) (hcne : c ≠ "")
    (hp : d.proxyTarget = none) (ht : d.type = some "number") (hro : d.readonly = false) :
    attrGet d (attrSet d st v).state
      = numOrElse (jsParseFloat v) (numOrElse (jsParseFloat d.defaultValue) JSVal.null)
  ∧ attrGet d (setAttribute st c (JSVal.str "123.456"))
      = JSVal.num (JSNum.val ((123456 : ℚ) / 1000)) := by
  have hb : d.type ≠ some "boolean" := by rw [ht]; simp
  have hpt : strTruthy d.proxyTarget = false := by rw [hp]; rfl
  have hrt : reflectToContentAttribute d = true := by
    unfold reflectToContentAttribute
    rw [hc]; exact strTruthy_some hcne
  have hkey : jsKey d.contentName = c := by rw [hc]; rfl
  have hparse : parseFloatStr "123.456" = JSNum.val (mkRat 123456 1000) := by decide
  have hq : (mkRat 123456 1000 : ℚ) = (123456 : ℚ) / 1000 := by
    norm_num [Rat.mkRat_eq_div]
  have htr : numTruthy (JSNum.val (mkRat 123456 1000)) = true := by decide
  constructor
  · have hset : (attrSet d st v).state = setAttribute st c v := by
      unfold attrSet numberSet proxyWriteStep
      simp [hb, ht, hro, hpt, hrt, hkey]
    rw [hset]
    unfold attrGet numberGet
    simp [hb, ht, hpt, hrt, hkey, getAttribute, setAttribute, attrsSet, jsParseFloat, jsToString]
  · have hga : getAttribute (setAttribute st c (JSVal.str "123.456")) (jsKey d.contentName)
        = JSVal.str "123.456" := by
      rw [hkey]
      unfold getAttribute setAttribute attrsSet
      simp [jsToString]
    have hstep : attrGet d (setAttribute st c (JSVal.str "123.456"))
        = numOrElse (jsParseFloat (JSVal.str "123.456"))
            (numOrElse (jsParseFloat d.defaultValue) JSVal.null) := by
      unfold attrGet numberGet
      simp [hb, ht, hpt, hrt, hga]
    rw [hstep, show jsParseFloat (JSVal.str "123.456") = JSNum.val (mkRat 123456 1000) from hparse]
    unfold numOrElse
    simp only [htr, if_true]
    rw [hq]

/-- C3 witness: the amended round trip at the concrete test descriptor
with the NUMERIC write `x = 123` from the repository's own test (and the
direct attribute write of "123.456"). -/
theorem number_reflecting_roundtrip_witness :
    numberReflectsConfig.contentName = some "number-that-reflects"
  ∧ ("number-that-reflects" ≠ "")
  ∧ numberReflectsConfig.type = some "number"
  ∧ (attrGet numberReflectsConfig
        (attrSet numberReflectsConfig emptyState (JSVal.num (JSNum.val 123))).state
      = numOrElse (jsParseFloat (JSVal.num (JSNum.val 123)))
          (numOrElse (jsParseFloat numberReflectsConfig.defaultValue) JSVal.null)
     ∧ attrGet numberReflectsConfig
        (setAttribute emptyState "number-that-reflects" (JSVal.str "123.456"))
      = JSVal.num (JSNum.val ((123456 : ℚ) / 1000)))
  ∧ attrGet numberReflectsConfig
        (attrSet numberReflectsConfig emptyState (JSVal.num (JSNum.val 123))).state
      = JSVal.num (JSNum.val 123) :=
  ⟨rfl, by decide, rfl,
    number_reflecting_roundtrip numberReflectsConfig emptyState (JSVal.num (JSNum.val 123))
      "number-that-reflects" rfl (by decide) rfl rfl rfl,
    by decide⟩

end AttributesMixin

namespace AttributesMixin

/-- C6: a write to a non-reflecting property (truthy `idlName`, no truthy
`contentName` or `proxyTarget`, readonly false) reads the old value from
the private store, stores the new value there, invokes
`attributeChangedCallback(idlName, oldValue, value)` exactly once — with
no value-equality dedup, so also when `oldValue === value` — and leaves
content attributes and proxy objects untouched, in every type branch. -/
theorem nonreflecting_write_notifies (d : AttributeConfig) (st : ElementState) (v : JSVal)
    (i : String) (hi : d.idlName = some i) (hine : i ≠ "")
    (hc : strTruthy d.contentName = false) (hp : strTruthy d.proxyTarget = false)
    (hro : d.readonly = false) :
    (attrSet d st v).state.idlAttributes = mapSet st.idlAttributes i v
  ∧ (attrSet d st v).state.contentAttributes = st.contentAttributes
  ∧ (attrSet d st v).state.proxyObjects = st.proxyObjects
  ∧ (attrSet d st v).callbacks = [(i, st.idlAttributes i, v)] := by
  have hkey : jsKey d.idlName = i := by rw [hi]; rfl
  unfold attrSet
  split_ifs with h1 h2
  · unfold booleanSet proxyWriteStep nonReflectingWrite
    simp [hro, hp, reflectToContentAttribute, hc, hkey]
  · unfold numberSet proxyWriteStep nonReflectingWrite
    simp [hro, hp, reflectToContentAttribute, hc, hkey]
  · unfold defaultSet proxyWriteStep nonReflectingWrite
    simp [hro, hp, reflectToContentAttribute, hc, hkey]

/-- Descriptor `{ idlName: 'attributeX' }` from the test suite. -/
def attributeXConfig : AttributeConfig :=
  ⟨some "attributeX", none, none, none, JSVal.undef, false⟩

/-- State after the first write `instance.attributeX = "abc"`. -/
def attributeXState : ElementState :=
  (attrSet attributeXConfig emptyState (JSVal.str "abc")).state

/-- C6 witness: at the concrete non-reflecting descriptor, rewriting the
SAME value "abc" still fires the callback once, with oldValue equal to
the new value. -/
theorem nonreflecting_write_notifies_witness :
    attributeXConfig.idlName = some "attributeX"
  ∧ ("attributeX" ≠ "")
  ∧ strTruthy attributeXConfig.contentName = false
  ∧ strTruthy attributeXConfig.proxyTarget = false
  ∧ ((attrSet attributeXConfig attributeXState (JSVal.str "abc")).state.idlAttributes
        = mapSet attributeXState.idlAttributes "attributeX" (JSVal.str "abc")
     ∧ (attrSet attributeXConfig attributeXState (JSVal.str "abc")).state.contentAttributes
        = attributeXState.contentAttributes
     ∧ (attrSet attributeXConfig attributeXState (JSVal.str "abc")).state.proxyObjects
        = attributeXState.proxyObjects
     ∧ (attrSet attributeXConfig attributeXState (JSVal.str "abc")).callbacks
        = [("attributeX", attributeXState.idlAttributes "attributeX", JSVal.str "abc")])
  ∧ (attrSet attributeXConfig attributeXState (JSVal.str "abc")).callbacks
      = [("attributeX", JSVal.str "abc", JSVal.str "abc")] :=
  ⟨rfl, by decide, rfl, rfl,
    nonreflecting_write_notifies attributeXConfig attributeXState (JSVal.str "abc")
      "attributeX" rfl (by decide) rfl rfl rfl,
    by decide⟩

/-- Descriptor `{ idlName: 'mabel', proxyTarget: 'proxyTargetB',
readonly: true }` with a `defaultValue` of "d" added, and an instance
whose proxied value is "abc". -/
def readonlyProxyConfig : AttributeConfig :=
  ⟨some "mabel", none, some "proxyTargetB", none, JSVal.str "d", true⟩

def readonlyProxyState : ElementState :=
  ⟨fun _ => JSVal.undef, fun _ => none, fun _ _ => JSVal.str "abc"⟩

/-- Descriptor `{ idlName: 'readonlyString', contentName:
'readonly-string', readonly: true, defaultValue: 'abc' }`: readonly with
a default AND a content name, which the validation guards accept. -/
def readonlyReflectingConfig : AttributeConfig :=
  ⟨some "readonlyString", some "readonly-string", none, none, JSVal.str "abc", true⟩

/-- Instance state after the external `setAttribute('readonly-string',
'xyz')` of the repository's own test. -/
def readonlyReflectingState : ElementState :=
  setAttribute emptyState "readonly-string" (JSVal.str "xyz")

/-- C7 counterexample: a descriptor with `readonly` true AND a
`defaultValue` may also carry a `proxyTarget`, and then its getter
returns the live proxied value ("abc"), not the `defaultValue` ("d");
it may equally carry a `contentName` (validation accepts that too), and
then its reflecting getter returns an externally set content attribute
("xyz"), not the `defaultValue` ("abc").  Either way the getter of a
readonly-with-default descriptor does not return the default in every
reachable state. -/
theorem readonly_getter_default_counterexample :
    (attrGet readonlyProxyConfig readonlyProxyState = JSVal.str "abc"
      ∧ readonlyProxyConfig.defaultValue = JSVal.str "d"
      ∧ JSVal.str "abc" ≠ JSVal.str "d")
  ∧ (attrGet readonlyReflectingConfig readonlyReflectingState = JSVal.str "xyz"
      ∧ readonlyReflectingConfig.defaultValue = JSVal.str "abc"
      ∧ JSVal.str "xyz" ≠ JSVal.str "abc")
  ∧ isError (setupAttribute readonlyReflectingConfig) = false := by
  refine ⟨⟨by decide, rfl, by decide⟩, ⟨by decide, rfl, by decide⟩, by decide⟩

/-- C7 (amended): every write through the setter of a `readonly`
descriptor is a complete no-op — state unchanged and no callback — in
every type branch.  The getter returns the `defaultValue` exactly in the
non-proxy, non-reflecting case: with no truthy `proxyTarget` and no
truthy `contentName` and the private store unset at `idlName` (which a
no-op setter can never populate), it returns the `defaultValue` under
the branch coercion — `Boolean` for boolean, `parseFloat(...) || null`
for number, `default || ''`-or-`null` for the untyped branch.  A
readonly descriptor with a truthy `contentName` instead follows the
content attribute (presence for boolean, `parseFloat(attr) ||
parseFloat(default) || null` for number, `attr || default || ''`
untyped), so an externally set attribute overrides the default; one
with a `proxyTarget` follows the live proxied value.  Getters never
modify any state (they are functions of the state by construction). -/
theorem readonly_setter_noop_getter_default (d : AttributeConfig) (st : ElementState)
    (v : JSVal) (hro : d.readonly = true) :
    attrSet d st v = ⟨st, []⟩
  ∧ (strTruthy d.proxyTarget = false → strTruthy d.contentName = false →
      st.idlAttributes (jsKey d.idlName) = JSVal.undef →
      attrGet d st =
        (if d.type = some "boolean" then JSVal.bool (truthy d.defaultValue)
         else if d.type = some "number" then
           numOrElse (jsParseFloat d.defaultValue) JSVal.null
         else jsOr d.defaultValue
           (if d.type = some "string" then JSVal.str "" else JSVal.null)))
  ∧ (strTruthy d.proxyTarget = false → strTruthy d.contentName = true →
      attrGet d st =
        (if d.type = some "boolean" then
           JSVal.bool (hasAttribute st (jsKey d.contentName))
         else if d.type = some "number" then
           numOrElse (jsParseFloat (getAttribute st (jsKey d.contentName)))
             (numOrElse (jsParseFloat d.defaultValue) JSVal.null)
         else jsOr (getAttribute st (jsKey d.contentName))
           (jsOr d.defaultValue (JSVal.str "")))) := by
  refine ⟨?_, ?_, ?_⟩
  · unfold attrSet
    split_ifs <;> simp [booleanSet, numberSet, defaultSet, hro]
  · intro hp hc hstore
    unfold attrGet
    split_ifs with h1 h2 h3
    · unfold booleanGet
      simp [hp, reflectToContentAttribute, hc, hstore]
    · unfold numberGet
      simp [hp, reflectToContentAttribute, hc, hstore, jsParseFloat_undef, numOrElse_nan]
    · unfold defaultGet
      simp [hp, reflectToContentAttribute, hc, hstore, jsOr, truthy, h3]
    · unfold defaultGet
      simp [hp, reflectToContentAttribute, hc, hstore, jsOr, truthy, h3]
  · intro hp hc
    unfold attrGet
    split_ifs with h1 h2
    · unfold booleanGet
      simp [hp, reflectToContentAttribute, hc]
    · unfold numberGet
      simp [hp, reflectToContentAttribute, hc]
    · unfold defaultGet
      simp [hp, reflectToContentAttribute, hc]

/-- Descriptor `{ idlName: 'readonlyString', readonly: true,
defaultValue: 'abc' }` from the test suite. -/
def readonlyStringConfig : AttributeConfig :=
  ⟨some "readonlyString", none, none, none, JSVal.str "abc", true⟩

/-- C7 witness: at the concrete readonly non-proxy descriptor, a write of
"xyz" on a fresh instance is a no-op and the getter yields the default
"abc". -/
theorem readonly_setter_noop_getter_default_witness :
    readonlyStringConfig.readonly = true
  ∧ (attrSet readonlyStringConfig emptyState (JSVal.str "xyz") = ⟨emptyState, []⟩
     ∧ (strTruthy readonlyStringConfig.proxyTarget = false →
        strTruthy readonlyStringConfig.contentName = false →
        emptyState.idlAttributes (jsKey readonlyStringConfig.idlName) = JSVal.undef →
        attrGet readonlyStringConfig emptyState =
          (if readonlyStringConfig.type = some "boolean" then
             JSVal.bool (truthy readonlyStringConfig.defaultValue)
           else if readonlyStringConfig.type = some "number" then
             numOrElse (jsParseFloat readonlyStringConfig.defaultValue) JSVal.null
           else jsOr readonlyStringConfig.defaultValue
             (if readonlyStringConfig.type = some "string" then JSVal.str ""
              else JSVal.null)))
     ∧ (strTruthy readonlyStringConfig.proxyTarget = false →
        strTruthy readonlyStringConfig.contentName = true →
        attrGet readonlyStringConfig emptyState =
          (if readonlyStringConfig.type = some "boolean" then
             JSVal.bool (hasAttribute emptyState (jsKey readonlyStringConfig.contentName))
           else if readonlyStringConfig.type = some "number" then
             numOrElse (jsParseFloat (getAttribute emptyState
                 (jsKey readonlyStringConfig.contentName)))
               (numOrElse (jsParseFloat readonlyStringConfig.defaultValue) JSVal.null)
           else jsOr (getAttribute emptyState (jsKey readonlyStringConfig.contentName))
             (jsOr readonlyStringConfig.defaultValue (JSVal.str "")))))
  ∧ attrGet readonlyStringConfig emptyState = JSVal.str "abc" :=
  ⟨rfl,
    readonly_setter_noop_getter_default readonlyStringConfig emptyState (JSVal.str "xyz") rfl,
    by decide⟩

/-- Descriptor `{ idlName: 'attributeX', defaultValue: 0 }` — an untyped
non-reflecting property whose `defaultValue` is present but falsy. -/
def untypedZeroDefaultConfig : AttributeConfig :=
  ⟨some "attributeX", none, none, none, JSVal.num (JSNum.val 0), false⟩

/-- C10 counterexample: with a present-but-falsy `defaultValue` (0), the
untyped getter after `set("")` returns `null`, not the `defaultValue`:
the `store || defaultValue || ...` chain also skips a falsy default. -/
theorem untyped_default_counterexample :
    attrGet untypedZeroDefaultConfig
        (attrSet untypedZeroDefaultConfig emptyState (JSVal.str "")).state = JSVal.null
  ∧ JSVal.null ≠ untypedZeroDefaultConfig.defaultValue := by
  refine ⟨by decide, by decide⟩

/-- C10 (amended): for an untyped non-reflecting property with a TRUTHY
`defaultValue`, the getter returns the `defaultValue` whenever the
stored value is falsy (empty string, 0, false, null, or never set), not
only when absent; a falsy `defaultValue` instead falls through to `''`
(type 'string') or `null`. -/
theorem untyped_falsy_store_returns_default (d : AttributeConfig) (st : ElementState)
    (hb : d.type ≠ some "boolean") (hn : d.type ≠ some "number")
    (hp : strTruthy d.proxyTarget = false) (hc : strTruthy d.contentName = false)
    (hd : truthy d.defaultValue = true)
    (hst : truthy (st.idlAttributes (jsKey d.idlName)) = false) :
    attrGet d st = d.defaultValue := by
  unfold attrGet defaultGet
  simp [hb, hn, hp, reflectToContentAttribute, hc, jsOr, hst, hd]

/-- Descriptor `{ idlName: 'attributeX', defaultValue: 'dflt' }`. -/
def untypedTruthyDefaultConfig : AttributeConfig :=
  ⟨some "attributeX", none, none, none, JSVal.str "dflt", false⟩

def untypedTruthyDefaultState : ElementState :=
  (attrSet untypedTruthyDefaultConfig emptyState (JSVal.str "")).state

/-- C10 witness: after `set("")` on the concrete descriptor with truthy
default "dflt", the getter returns "dflt" rather than the stored empty
string. -/
theorem untyped_falsy_store_returns_default_witness :
    untypedTruthyDefaultConfig.type ≠ some "boolean"
  ∧ untypedTruthyDefaultConfig.type ≠ some "number"
  ∧ strTruthy untypedTruthyDefaultConfig.proxyTarget = false
  ∧ strTruthy untypedTruthyDefaultConfig.contentName = false
  ∧ truthy untypedTruthyDefaultConfig.defaultValue = true
  ∧ truthy (untypedTruthyDefaultState.idlAttributes
      (jsKey untypedTruthyDefaultConfig.idlName)) = false
  ∧ attrGet untypedTruthyDefaultConfig untypedTruthyDefaultState
      = untypedTruthyDefaultConfig.defaultValue :=
  ⟨by decide, by decide, rfl, rfl, by decide, by decide,
    untyped_falsy_store_returns_default untypedTruthyDefaultConfig untypedTruthyDefaultState
      (by decide) (by decide) rfl rfl (by decide) (by decide)⟩

end AttributesMixin
